import Mathlib

/-!
Shallow embedding of the LibraryLink Utilities container core
(src/src/Tensor.h, src/include/LLU/Containers/MArrayBase.h,
src/src/MArgumentManager.h) and proofs about its specified behaviour.

Conventions of the embedding:
* `mint` (the signed machine index type of WolframLibrary, 64-bit here) is
  modelled as `Int`; the bounds `MINT_MAX` and `MINT_MIN` are explicit.
* Foreign `MTensor` handles are natural-number identifiers into an explicit
  host heap (`HostState`); the capability hooks `MTensor_new` and
  `MTensor_free` allocate into and remove from that heap, so leaks on a
  constructor path are visible as identifiers left in the heap.
* Fallible constructors return `Except LLErrorCode _`; a thrown
  `LibraryLinkError` / `ErrorManager::throwException` is the `.error` case.
* Template element types are represented by the tag the code dispatches on;
  element data is modelled as `List Int` (the value set of the element type
  is irrelevant to every claim below).
-/

namespace LibraryLinkUtils

/-- Largest value of `mint` (`std::numeric_limits<mint>::max()` on a 64-bit
platform), as used by `MArgumentManager::MINT_MAX` and
`MArrayBase::checkContainerSize`. -/
def MINT_MAX : Int := 2 ^ 63 - 1

/-- Smallest value of `mint` (`std::numeric_limits<mint>::min()`), as used by
`MArgumentManager::MINT_MIN`. -/
def MINT_MIN : Int := -(2 ^ 63)

/-- Symbolic error codes thrown by the embedded code. The old generation of
the sources (src/src) uses the `LLErrorCode` enum (`TensorInitError`,
`TensorNewError`, ...); the new generation (src/include/LLU) throws by
`LLErrorName` (`FunctionError`, `DimensionsError`). Both families are merged
into one inductive here. -/
inductive LLErrorCode where
  | FunctionError
  | DimensionsError
  | TensorInitError
  | TensorTypeError
  | TensorNewError
  | TensorSizeError
  | TensorIndexError
  | MArgumentIndexError
  | MArgumentRawArrayError
  | MArgumentTensorError
  | MArgumentImageError
deriving DecidableEq

/-- Embedding of `MArgumentManager::setMintAndCheck` (src/src/MArgumentManager.h,
lines 335-350). The argument is the mathematical value of the integral input
`result`; the returned pair is (value stored in the output slot by
`setInteger`, boolean return value). -/
def setMintAndCheck (result : Int) : Int × Bool :=
  if result ≥ MINT_MAX then (MINT_MAX, true)
  else if result ≤ MINT_MIN then (MINT_MIN, true)
  else (result, false)

/-- C10: setMintAndCheck stores the input clamped into [MINT_MIN, MINT_MAX]
and returns true exactly when the input is ≥ MINT_MAX or ≤ MINT_MIN (so a
value exactly equal to a bound is stored unchanged yet reported as clamped),
and false otherwise. -/
theorem setMintAndCheck_clamps_and_reports (v : Int) :
    (setMintAndCheck v).1 = max MINT_MIN (min MINT_MAX v) ∧
    ((setMintAndCheck v).2 = true ↔ (MINT_MAX ≤ v ∨ v ≤ MINT_MIN)) := by
  have hlt : MINT_MIN < MINT_MAX := by unfold MINT_MIN MINT_MAX; norm_num
  unfold setMintAndCheck
  split_ifs with h1 h2 <;> constructor <;> simp_all <;> omega

/-- The process-wide Wolfram*Library capability structures used by the
containers. `MArrayBase::MArrayBase(Container&&)` checks all three pointers
(`libData`, `raFuns`, `imgFuns`, MArrayBase.h line 221);
`Tensor<T>::Tensor(const MTensor)` checks only `libData` (Tensor.h line 251).
Each flag records whether the corresponding pointer is set (non-null). -/
structure LibEnv where
  libData : Bool
  raFuns : Bool
  imgFuns : Bool
deriving DecidableEq

/-- Condition guarding `MArrayBase::MArrayBase(Container&&)`: the negation of
`!libData || !raFuns || !imgFuns`. -/
def hooksOk (e : LibEnv) : Bool := e.libData && e.raFuns && e.imgFuns

/-- Environment with every capability structure installed. -/
def envAll : LibEnv := ⟨true, true, true⟩

/-- Environment with no capability structure installed. -/
def envNone : LibEnv := ⟨false, false, false⟩

/-- MTensor element type tag (`unsigned char` values `MType_Integer`,
`MType_Real`, `MType_Complex` of WolframLibrary.h). The constructor `other`
stands for every remaining value of the underlying `unsigned char`. -/
inductive TensorType where
  | integer
  | real
  | complex
  | other
deriving DecidableEq

/-- A foreign MTensor object as the host tracks it: declared element type,
rank, dimensions, flattened length and flat data. Handles held by native
wrappers are identifiers into `HostState.heap` pointing at such objects. -/
structure MTensorObj where
  ttype : TensorType
  trank : Int
  tdims : List Int
  tflat : Int
  tdata : List Int
deriving DecidableEq

/-- State of the host allocator: the next fresh handle identifier and the
heap of currently allocated (not yet freed) MTensor objects. -/
structure HostState where
  nextId : Nat
  heap : List (Nat × MTensorObj)
deriving DecidableEq

/-- Host state with no allocations. -/
def hostEmpty : HostState := ⟨0, []⟩

/-- Capability hook `MTensor_new(type, 1, &flattenedLength, &internalMT)` as
invoked by `Tensor<T>::createInternal` (Tensor.h lines 175-178): allocates a
fresh flat rank-1 MTensor of the given flattened length and returns its
handle. Uninitialized storage is modelled as zeros. -/
def mtensorNew (tt : TensorType) (flat : Int) (host : HostState) : Nat × HostState :=
  (host.nextId,
   ⟨host.nextId + 1,
    (host.nextId, ⟨tt, 1, [flat], flat, List.replicate flat.toNat 0⟩) :: host.heap⟩)

/-- Capability hook `MTensor_free(handle)` as invoked by
`Tensor<T>::freeInternal` (Tensor.h lines 184-186): removes the handle from
the host heap. -/
def mtensorFree (h : Nat) (host : HostState) : HostState :=
  ⟨host.nextId, host.heap.filter (fun p => p.1 ≠ h)⟩

/-- Writing of the element range into the storage behind handle `h`
(`std::copy(first, last, this->begin())`, where `begin()` points into the
MTensor data). -/
def hostSetData (host : HostState) (h : Nat) (data : List Int) : HostState :=
  ⟨host.nextId,
   host.heap.map (fun p => if p.1 = h then (p.1, { p.2 with tdata := data }) else p)⟩

/-- The data currently stored behind handle `h`, if `h` is live. -/
def hostData (host : HostState) (h : Nat) : Option (List Int) :=
  (host.heap.find? (fun p => p.1 = h)).map (fun p => p.2.tdata)

/-- Metadata part of a container wrapper: the fields of `MArrayBase`
(src/include/LLU/Containers/MArrayBase.h lines 135-182). The `offsets`
vector is omitted: it is only populated by `fillOffsets` (whose translation
unit is not part of the sources) and no operation modelled here reads it. -/
structure MArrayState where
  flattenedLength : Int := 0
  depth : Int := 0
  dims : List Int := []
  arrayOwnerQ : Bool := false
deriving DecidableEq

/-- State of a `Tensor<T>` wrapper: the `MArrayBase` part plus the
`internalMT` handle (Tensor.h line 199, default `nullptr` = `none`). -/
structure TensorState where
  base : MArrayState
  internalMT : Option Nat := none
deriving DecidableEq

/-- Embedding of `MArrayBase::checkContainerSize` (MArrayBase.h lines
235-240): rejects a dimensions container whose length does not fit into
`mint`. The `sizeError()` raised there is `MArrayBase::sizeError`, which
throws `LLErrorName::DimensionsError` (lines 176-178). -/
def checkContainerSize (v : List Int) : Except LLErrorCode Int :=
  if (v.length : Int) > MINT_MAX then .error .DimensionsError
  else .ok (v.length : Int)

/-- Modelled from the spec: the body of `MArrayBase::totalLengthFromDims` is
in MArrayBase.cpp, which is not among the sources; the spec defines
`flattenedLength = product(dimensions)`. -/
def totalLengthFromDims (dims : List Int) : Int := dims.prod

/-- Embedding of the base-class constructor
`MArrayBase::MArrayBase(Container&&)` (MArrayBase.h lines 219-233). Note on
the first check: `initError()` is a virtual call executed in the body of the
`MArrayBase` constructor, so it dispatches to `MArrayBase::initError` (the
dynamic type during base-subobject construction is `MArrayBase`), which
throws `LLErrorName::FunctionError` (lines 168-170); the doc comments of the
constructor (lines 44 and 53) state exactly this. Variant overrides such as
`Tensor<T>::initError` cannot be reached from here. -/
def mArrayBaseConstruct (e : LibEnv) (dims : List Int) : Except LLErrorCode MArrayState :=
  if ¬ hooksOk e then .error .FunctionError
  else match checkContainerSize dims with
    | .error er => .error er
    | .ok depth =>
      if ¬ dims.all (fun d => 0 < d && d ≤ MINT_MAX) then .error .DimensionsError
      else .ok { flattenedLength := totalLengthFromDims dims, depth := depth,
                 dims := dims, arrayOwnerQ := false }

/-- Embedding of the shape-allocating filling constructor
`Tensor<T>::Tensor(T init, Container&& dims)` (Tensor.h lines 213-219): runs
the base-class constructor, then `createInternal()` (allocating a fresh flat
MTensor of length `flattenedLength`), sets `arrayOwnerQ`, and fills the
storage with `init` (`std::fill`). The element type parameter `T` is
represented by its MTensor type tag `tt`; element values by `Int`. -/
def tensorFromValue (e : LibEnv) (tt : TensorType) (init : Int) (dims : List Int)
    (host : HostState) : Except LLErrorCode TensorState × HostState :=
  match mArrayBaseConstruct e dims with
  | .error er => (.error er, host)
  | .ok base =>
    let hh := mtensorNew tt base.flattenedLength host
    let host2 := hostSetData hh.2 hh.1 (List.replicate base.flattenedLength.toNat init)
    (.ok ⟨{ base with arrayOwnerQ := true }, some hh.1⟩, host2)

/-- Embedding of the range constructor
`Tensor<T>::Tensor(InputIt first, InputIt last, Container&& dims)` (Tensor.h
lines 229-237): runs the base-class constructor, then `createInternal()`
(which allocates), then compares `std::distance(first, last)` with
`flattenedLength` and throws `TensorNewError` on mismatch. On the throwing
path the `Tensor` object is not yet fully constructed, so `~Tensor` does not
run and `MTensor_free` is never invoked: the host heap keeps the freshly
allocated handle. On the success path `arrayOwnerQ` is set and the range is
copied into the storage. -/
def tensorFromRange (e : LibEnv) (tt : TensorType) (elems : List Int) (dims : List Int)
    (host : HostState) : Except LLErrorCode TensorState × HostState :=
  match mArrayBaseConstruct e dims with
  | .error er => (.error er, host)
  | .ok base =>
    let hh := mtensorNew tt base.flattenedLength host
    if (elems.length : Int) ≠ base.flattenedLength then
      (.error .TensorNewError, hh.2)
    else
      (.ok ⟨{ base with arrayOwnerQ := true }, some hh.1⟩, hostSetData hh.2 hh.1 elems)

/-- Embedding of the wrapping constructor `Tensor<T>::Tensor(const MTensor)`
(Tensor.h lines 249-262). Here `initError()` is called from the body of the
`Tensor` constructor itself, where virtual dispatch does reach the
`Tensor<T>::initError` override, which throws `TensorInitError` (lines
155-157). On success the wrapper records rank, flattened length and the
first `rank` dimensions read from the handle, keeps `arrayOwnerQ = false`,
and stores the handle; the host heap is returned unchanged (no allocation).
The handle identifier is `h`; `obj` is the MTensor object the host
associates with `h`. -/
def tensorWrap (e : LibEnv) (tt : TensorType) (h : Nat) (obj : MTensorObj)
    (host : HostState) : Except LLErrorCode TensorState × HostState :=
  if ¬ e.libData then (.error .TensorInitError, host)
  else if tt ≠ obj.ttype then (.error .TensorTypeError, host)
  else (.ok ⟨{ flattenedLength := obj.tflat, depth := obj.trank,
               dims := obj.tdims.take obj.trank.toNat, arrayOwnerQ := false },
             some h⟩, host)

/-- Embedding of the move constructor `Tensor<T>::Tensor(Tensor<T>&&)`
(Tensor.h lines 264-269). The first component is the newly constructed
target, the second the source after the move. The delegated base move
`MArray<T>(std::move(t2))` is modelled from the spec (MArray.hpp is not
among the sources): move-construction transfers ownership, so the target
copies the metadata of the source including its ownership flag. The
constructor body then takes the handle and leaves the source with a null
handle and `arrayOwnerQ = false`. The moved-from vectors of the source hold
unspecified contents in C++; they are left unchanged here, and no claim
reads them. -/
def tensorMove (t2 : TensorState) : TensorState × TensorState :=
  (⟨t2.base, t2.internalMT⟩,
   ⟨{ t2.base with arrayOwnerQ := false }, none⟩)

/-- Embedding of the destructor `Tensor<T>::~Tensor` (Tensor.h lines
271-275): frees the internal MTensor exactly when `arrayOwnerQ` holds.
`MTensor_free(nullptr)` cannot occur for a wrapper satisfying the ownership
invariant; it is modelled as leaving the host unchanged. -/
def tensorDestroy (t : TensorState) (host : HostState) : HostState :=
  if t.base.arrayOwnerQ then
    match t.internalMT with
    | some h => mtensorFree h host
    | none => host
  else host

/-- Output MArgument slot as written by the `passInternal` overrides. -/
inductive MArgumentSlot where
  | empty
  | tensorSlot (h : Option Nat)
deriving DecidableEq

/-- Embedding of `MArrayBase::passAsResult` (MArrayBase.h lines 118-121)
composed with `Tensor<T>::passInternal` (Tensor.h lines 191-193): writes
`internalMT` into the output slot via `MArgument_setMTensor`, then
`setOwner(false)`. The function is total: no failure is possible. -/
def passAsResult (t : TensorState) : TensorState × MArgumentSlot :=
  (⟨{ t.base with arrayOwnerQ := false }, t.internalMT⟩, .tensorSlot t.internalMT)

/-- Helper: unfolding of `tensorFromValue` when the base-class constructor
fails. -/
theorem tensorFromValue_error (e : LibEnv) (tt : TensorType) (init : Int)
    (dims : List Int) (host : HostState) (er : LLErrorCode)
    (h : mArrayBaseConstruct e dims = Except.error er) :
    tensorFromValue e tt init dims host = (Except.error er, host) := by
  unfold tensorFromValue
  rw [h]

/-- Helper: unfolding of `tensorFromValue` when the base-class constructor
succeeds. -/
theorem tensorFromValue_ok (e : LibEnv) (tt : TensorType) (init : Int)
    (dims : List Int) (host : HostState) (base : MArrayState)
    (h : mArrayBaseConstruct e dims = Except.ok base) :
    tensorFromValue e tt init dims host =
      (Except.ok ⟨{ base with arrayOwnerQ := true },
                  some (mtensorNew tt base.flattenedLength host).1⟩,
       hostSetData (mtensorNew tt base.flattenedLength host).2
         (mtensorNew tt base.flattenedLength host).1
         (List.replicate base.flattenedLength.toNat init)) := by
  unfold tensorFromValue
  rw [h]

/-- C1: on the failing path of the range constructor (range length 2,
dimensions [3], so the range does not match the flattened length 3) the
constructor raises TensorNewError after `createInternal` has allocated a
foreign MTensor, and that handle is still allocated in the host heap when
the exception propagates: the already-allocated foreign storage is NOT
released, contradicting the no-leak guarantee of the spec. -/
theorem tensorFromRange_leaks_on_mismatch :
    (tensorFromRange envAll TensorType.integer [1, 2] [3] hostEmpty).1 =
      Except.error LLErrorCode.TensorNewError ∧
    (tensorFromRange envAll TensorType.integer [1, 2] [3] hostEmpty).2.heap.map Prod.fst =
      [0] := by
  constructor <;> rfl

/-- C2 counterexample: with no capability structure installed, the
shape-allocating constructor fails with the generic FunctionError raised by
`MArrayBase::initError`, which is not the variant-specific initialization
error TensorInitError, refuting the claim that both constructors fail with
the variant-specific InitError. -/
theorem shapeConstructor_initError_is_not_variant_specific :
    (tensorFromValue envNone TensorType.integer 0 [2] hostEmpty).1 =
      Except.error LLErrorCode.FunctionError ∧
    LLErrorCode.FunctionError ≠ LLErrorCode.TensorInitError := by
  constructor
  · rfl
  · intro h
    exact LLErrorCode.noConfusion h

/-- C2 amended: with the capability table not installed, the wrapping
constructor fails with the variant-specific TensorInitError, while the
shape-allocating constructor fails with the generic FunctionError, because
`MArrayBase::initError` is the override executed during base-subobject
construction. -/
theorem constructors_fail_without_capability_table (e : LibEnv)
    (hld : e.libData = false) :
    (∀ tt init dims host,
        (tensorFromValue e tt init dims host).1 = Except.error LLErrorCode.FunctionError) ∧
    (∀ tt h obj host,
        (tensorWrap e tt h obj host).1 = Except.error LLErrorCode.TensorInitError) := by
  constructor
  · intro tt init dims host
    have he : hooksOk e = false := by simp [hooksOk, hld]
    simp [tensorFromValue, mArrayBaseConstruct, he]
  · intro tt h obj host
    simp [tensorWrap, hld]

/-- C2 amended, witness: concrete application with the empty environment,
tag integer, dimensions [2] and an arbitrary concrete handle. -/
theorem constructors_fail_without_capability_table_witness :
    envNone.libData = false ∧
    (tensorFromValue envNone TensorType.integer 0 [2] hostEmpty).1 =
      Except.error LLErrorCode.FunctionError ∧
    (tensorWrap envNone TensorType.integer 0 ⟨TensorType.integer, 1, [2], 2, [0, 0]⟩
        hostEmpty).1 = Except.error LLErrorCode.TensorInitError := by
  refine ⟨rfl, ?_, ?_⟩
  · exact (constructors_fail_without_capability_table envNone rfl).1
      TensorType.integer 0 [2] hostEmpty
  · exact (constructors_fail_without_capability_table envNone rfl).2
      TensorType.integer 0 ⟨TensorType.integer, 1, [2], 2, [0, 0]⟩ hostEmpty

/-- C9: with the capability table installed, constructing a buffer from a
dimensions list containing a non-positive entry fails with DimensionsError
and produces no buffer. -/
theorem construct_nonpositive_dimension_fails (e : LibEnv) (tt : TensorType)
    (init : Int) (dims : List Int) (host : HostState) (d : Int)
    (he : hooksOk e = true) (hmem : d ∈ dims) (hd : d ≤ 0) :
    (tensorFromValue e tt init dims host).1 = Except.error LLErrorCode.DimensionsError := by
  have hbase : mArrayBaseConstruct e dims = Except.error LLErrorCode.DimensionsError := by
    have hall : dims.all (fun x => 0 < x && x ≤ MINT_MAX) = false := by
      rw [List.all_eq_false]
      exact ⟨d, hmem, by simp; omega⟩
    unfold mArrayBaseConstruct checkContainerSize
    by_cases hlen : MINT_MAX < (dims.length : Int)
    · simp [he, hlen]
    · simp [he, hlen, hall]
  simp [tensorFromValue, hbase]

/-- C9 witness: dimensions [0] with the full environment. -/
theorem construct_nonpositive_dimension_fails_witness :
    hooksOk envAll = true ∧ (0 : Int) ∈ [(0 : Int)] ∧ (0 : Int) ≤ 0 ∧
    (tensorFromValue envAll TensorType.integer 7 [0] hostEmpty).1 =
      Except.error LLErrorCode.DimensionsError :=
  ⟨rfl, by simp, le_refl 0,
   construct_nonpositive_dimension_fails envAll TensorType.integer 7 [0] hostEmpty 0
     rfl (by simp) (le_refl 0)⟩

/-- Dimensions list refuting C4 as stated: 2 ^ 63 entries, each equal to 1,
so every entry is positive and the product (= 1) fits into mint, yet the
length itself does not fit into mint, which `checkContainerSize` rejects. -/
def hugeOnesDims : List Int := List.replicate (2 ^ 63) 1

/-- C4 counterexample: for the dimensions list of 2 ^ 63 ones every entry is
positive and the product of the entries (namely 1) fits into mint, yet the
construction does not succeed: it fails with DimensionsError, because the
number of dimensions itself exceeds MINT_MAX and is rejected by
`checkContainerSize`. -/
theorem construct_valid_dims_claim_fails :
    (∀ d ∈ hugeOnesDims, 0 < d) ∧ hugeOnesDims.prod ≤ MINT_MAX ∧
    (tensorFromValue envAll TensorType.integer 0 hugeOnesDims hostEmpty).1 =
      Except.error LLErrorCode.DimensionsError := by
  refine ⟨?_, ?_, ?_⟩
  · intro d hd
    rw [List.eq_of_mem_replicate (show d ∈ List.replicate (2 ^ 63) (1 : Int) from hd)]
    norm_num
  · show (List.replicate (2 ^ 63) (1 : Int)).prod ≤ MINT_MAX
    rw [List.prod_replicate, one_pow]
    unfold MINT_MAX
    norm_num
  · have hlen : MINT_MAX < (hugeOnesDims.length : Int) := by
      show MINT_MAX < ((List.replicate (2 ^ 63) (1 : Int)).length : Int)
      rw [List.length_replicate]
      unfold MINT_MAX
      push_cast
    have hcs : checkContainerSize hugeOnesDims = Except.error LLErrorCode.DimensionsError := by
      unfold checkContainerSize
      rw [if_pos hlen]
    have hbase : mArrayBaseConstruct envAll hugeOnesDims =
        Except.error LLErrorCode.DimensionsError := by
      unfold mArrayBaseConstruct
      rw [if_neg (show ¬ ¬ hooksOk envAll = true from not_not_intro rfl), hcs]
    rw [tensorFromValue_error envAll TensorType.integer 0 hugeOnesDims hostEmpty
      LLErrorCode.DimensionsError hbase]

/-- Helper: a list of integers that are all at least 1 has product at least 1. -/
theorem intList_one_le_prod (l : List Int) (h : ∀ x ∈ l, 1 ≤ x) : 1 ≤ l.prod := by
  induction l with
  | nil => simp
  | cons a t ih =>
    rw [List.prod_cons]
    have ha := h a (List.mem_cons_self a t)
    have ht := ih (fun x hx => h x (List.mem_cons_of_mem a hx))
    nlinarith

/-- Helper: in a list of integers that are all at least 1, every member is
bounded by the product of the list. -/
theorem intList_single_le_prod (l : List Int) (h : ∀ x ∈ l, 1 ≤ x) :
    ∀ x ∈ l, x ≤ l.prod := by
  induction l with
  | nil => simp
  | cons a t ih =>
    intro x hx
    rw [List.prod_cons]
    have ht1 := intList_one_le_prod t (fun y hy => h y (List.mem_cons_of_mem a hy))
    rcases List.mem_cons.mp hx with rfl | hxt
    · have hx1 := h x (List.mem_cons_self x t)
      nlinarith
    · have hxp := ih (fun y hy => h y (List.mem_cons_of_mem a hy)) x hxt
      have ha1 := h a (List.mem_cons_self a t)
      nlinarith

/-- C4 amended: for every dimensions list whose number of entries fits into
mint, with each entry positive and the product of the entries fitting into
mint, construction succeeds and the resulting buffer has flattened length
(size) equal to the product of the dimensions and rank equal to the number
of dimensions. -/
theorem construct_valid_dims_size_and_rank (e : LibEnv) (tt : TensorType) (init : Int)
    (dims : List Int) (host : HostState)
    (he : hooksOk e = true)
    (hlen : (dims.length : Int) ≤ MINT_MAX)
    (hpos : ∀ d ∈ dims, 0 < d)
    (hprod : dims.prod ≤ MINT_MAX) :
    ∃ t host2, tensorFromValue e tt init dims host = (Except.ok t, host2) ∧
      t.base.flattenedLength = dims.prod ∧ t.base.depth = (dims.length : Int) := by
  have hone : ∀ d ∈ dims, (1 : Int) ≤ d := fun d hd => hpos d hd
  have hbound : ∀ d ∈ dims, d ≤ MINT_MAX := fun d hd =>
    le_trans (intList_single_le_prod dims hone d hd) hprod
  have hall : dims.all (fun d => 0 < d && d ≤ MINT_MAX) = true := by
    rw [List.all_eq_true]
    intro d hd
    simp [hpos d hd, hbound d hd]
  have hbase : mArrayBaseConstruct e dims =
      Except.ok { flattenedLength := totalLengthFromDims dims, depth := (dims.length : Int),
                  dims := dims, arrayOwnerQ := false } := by
    unfold mArrayBaseConstruct checkContainerSize
    simp [he, not_lt.mpr hlen, hall]
  exact ⟨_, _, tensorFromValue_ok e tt init dims host _ hbase, rfl, rfl⟩

/-- C4 amended, witness: dimensions [2, 3] give size 6 and rank 2. -/
theorem construct_valid_dims_size_and_rank_witness :
    hooksOk envAll = true ∧ ((2 : Int) ≤ MINT_MAX) ∧
    ∃ t host2,
      tensorFromValue envAll TensorType.integer 0 [2, 3] hostEmpty = (Except.ok t, host2) ∧
      t.base.flattenedLength = ([2, 3] : List Int).prod ∧
      t.base.depth = (([2, 3] : List Int).length : Int) :=
  ⟨rfl, by unfold MINT_MAX; norm_num,
   construct_valid_dims_size_and_rank envAll TensorType.integer 0 [2, 3] hostEmpty rfl
     (by unfold MINT_MAX; norm_num) (by norm_num)
     (by unfold MINT_MAX; norm_num)⟩

/-- C5: with the library data installed, wrapping a foreign handle whose
declared element type differs from the wrapper element type parameter fails
with TensorTypeError; wrapping a handle of matching type succeeds without
touching the host heap (no allocation), records rank, dimensions and
flattened length read from the handle, and leaves the ownership flag not
owned. -/
theorem tensorWrap_type_check (e : LibEnv) (tt : TensorType) (h : Nat)
    (obj : MTensorObj) (host : HostState) (hld : e.libData = true) :
    (tt ≠ obj.ttype →
      tensorWrap e tt h obj host = (Except.error LLErrorCode.TensorTypeError, host)) ∧
    (tt = obj.ttype →
      tensorWrap e tt h obj host =
        (Except.ok ⟨{ flattenedLength := obj.tflat, depth := obj.trank,
                      dims := obj.tdims.take obj.trank.toNat, arrayOwnerQ := false },
                    some h⟩, host)) := by
  constructor
  · intro hne
    simp [tensorWrap, hld, hne]
  · intro heq
    simp [tensorWrap, hld, heq]

/-- C5 witness: wrapping a real-typed handle into an integer-typed wrapper
fails with TensorTypeError; wrapping an integer-typed handle of rank 2 and
dimensions [2, 2] succeeds, not owned, with metadata read from the handle
and the host heap untouched. -/
theorem tensorWrap_type_check_witness :
    envAll.libData = true ∧
    tensorWrap envAll TensorType.integer 5 ⟨TensorType.real, 1, [4], 4, [0, 0, 0, 0]⟩
        hostEmpty = (Except.error LLErrorCode.TensorTypeError, hostEmpty) ∧
    tensorWrap envAll TensorType.integer 5 ⟨TensorType.integer, 2, [2, 2], 4, [1, 2, 3, 4]⟩
        hostEmpty =
      (Except.ok ⟨{ flattenedLength := 4, depth := 2,
                    dims := ([2, 2] : List Int).take ((2 : Int)).toNat,
                    arrayOwnerQ := false }, some 5⟩, hostEmpty) := by
  refine ⟨rfl, ?_, ?_⟩
  · exact (tensorWrap_type_check envAll TensorType.integer 5
      ⟨TensorType.real, 1, [4], 4, [0, 0, 0, 0]⟩ hostEmpty rfl).1 (by decide)
  · exact (tensorWrap_type_check envAll TensorType.integer 5
      ⟨TensorType.integer, 2, [2, 2], 4, [1, 2, 3, 4]⟩ hostEmpty rfl).2 rfl

/-- C6: after move-construction the source has a null handle and a false
ownership flag (destructible, non-owning), the target holds exactly the
handle the source held with the previous ownership status of the source,
destroying the source performs no release on the host, and the
owner-of-non-null-handle invariant carries over to the target. -/
theorem tensorMove_transfers_ownership (t1 : TensorState)
    (hinv : t1.base.arrayOwnerQ = true → t1.internalMT ≠ none) :
    (tensorMove t1).2.internalMT = none ∧
    (tensorMove t1).2.base.arrayOwnerQ = false ∧
    (tensorMove t1).1.internalMT = t1.internalMT ∧
    (tensorMove t1).1.base.arrayOwnerQ = t1.base.arrayOwnerQ ∧
    (∀ host, tensorDestroy (tensorMove t1).2 host = host) ∧
    ((tensorMove t1).1.base.arrayOwnerQ = true → (tensorMove t1).1.internalMT ≠ none) :=
  ⟨rfl, rfl, rfl, rfl, fun _ => rfl, fun hq => hinv hq⟩

/-- Concrete example wrapper: owns handle 0 of a rank-1 tensor of length 3. -/
def exampleOwner : TensorState :=
  ⟨{ flattenedLength := 3, depth := 1, dims := [3], arrayOwnerQ := true }, some 0⟩

/-- C6 witness: moving from a wrapper that owns handle 0 of a rank-1 tensor
of length 3. -/
theorem tensorMove_transfers_ownership_witness :
    (exampleOwner.base.arrayOwnerQ = true → exampleOwner.internalMT ≠ none) ∧
    ((tensorMove exampleOwner).2.internalMT = none ∧
     (tensorMove exampleOwner).2.base.arrayOwnerQ = false ∧
     (tensorMove exampleOwner).1.internalMT = exampleOwner.internalMT ∧
     (tensorMove exampleOwner).1.base.arrayOwnerQ = exampleOwner.base.arrayOwnerQ ∧
     (∀ host, tensorDestroy (tensorMove exampleOwner).2 host = host) ∧
     ((tensorMove exampleOwner).1.base.arrayOwnerQ = true →
       (tensorMove exampleOwner).1.internalMT ≠ none)) :=
  ⟨fun _ => by decide,
   tensorMove_transfers_ownership exampleOwner (fun _ => by decide)⟩

/-- C7: passing a buffer to the host writes the internal handle into the
output slot, flips the local ownership flag to not owned while keeping the
handle, and a subsequent destruction of the wrapper performs no release on
the host. The operation is a total function: it cannot fail. -/
theorem passAsResult_transfers_to_host (t : TensorState) :
    (passAsResult t).2 = MArgumentSlot.tensorSlot t.internalMT ∧
    (passAsResult t).1.internalMT = t.internalMT ∧
    (passAsResult t).1.base.arrayOwnerQ = false ∧
    ∀ host, tensorDestroy (passAsResult t).1 host = host :=
  ⟨rfl, rfl, rfl, fun _ => rfl⟩

/-- Helper: unfolding of `tensorFromRange` when the base-class constructor
succeeds and the range length mismatches the flattened length. -/
theorem tensorFromRange_mismatch (e : LibEnv) (tt : TensorType) (elems dims : List Int)
    (host : HostState) (base : MArrayState)
    (h : mArrayBaseConstruct e dims = Except.ok base)
    (hne : (elems.length : Int) ≠ base.flattenedLength) :
    tensorFromRange e tt elems dims host =
      (Except.error LLErrorCode.TensorNewError,
       (mtensorNew tt base.flattenedLength host).2) := by
  unfold tensorFromRange
  rw [h]
  simp [hne]

/-- Helper: unfolding of `tensorFromRange` when the base-class constructor
succeeds and the range length matches the flattened length. -/
theorem tensorFromRange_matches (e : LibEnv) (tt : TensorType) (elems dims : List Int)
    (host : HostState) (base : MArrayState)
    (h : mArrayBaseConstruct e dims = Except.ok base)
    (heq : (elems.length : Int) = base.flattenedLength) :
    tensorFromRange e tt elems dims host =
      (Except.ok ⟨{ base with arrayOwnerQ := true },
                  some (mtensorNew tt base.flattenedLength host).1⟩,
       hostSetData (mtensorNew tt base.flattenedLength host).2
         (mtensorNew tt base.flattenedLength host).1 elems) := by
  unfold tensorFromRange
  rw [h]
  simp [heq]

/-- Helper: after allocating a fresh MTensor and copying `data` into it, the
data stored behind the fresh handle is `data`. -/
theorem hostData_after_new_and_set (tt : TensorType) (flat : Int) (host : HostState)
    (data : List Int) :
    hostData (hostSetData (mtensorNew tt flat host).2 (mtensorNew tt flat host).1 data)
      (mtensorNew tt flat host).1 = some data := by
  simp [hostData, hostSetData, mtensorNew, List.find?]

/-- C8: with the capability table installed and a valid dimensions list, the
range-filling constructor fails with TensorNewError when the number of
elements in the range differs from the flattened length implied by the
dimensions, and succeeds and copies the range into the new storage when the
counts are equal. -/
theorem tensorFromRange_length_check (e : LibEnv) (tt : TensorType)
    (elems dims : List Int) (host : HostState)
    (he : hooksOk e = true)
    (hlen : (dims.length : Int) ≤ MINT_MAX)
    (hdims : ∀ d ∈ dims, 0 < d ∧ d ≤ MINT_MAX) :
    ((elems.length : Int) ≠ dims.prod →
      (tensorFromRange e tt elems dims host).1 =
        Except.error LLErrorCode.TensorNewError) ∧
    ((elems.length : Int) = dims.prod →
      ∃ t host2 hd, tensorFromRange e tt elems dims host = (Except.ok t, host2) ∧
        t.internalMT = some hd ∧ hostData host2 hd = some elems) := by
  have hall : dims.all (fun d => 0 < d && d ≤ MINT_MAX) = true := by
    rw [List.all_eq_true]
    intro d hd
    simp [(hdims d hd).1, (hdims d hd).2]
  have hbase : mArrayBaseConstruct e dims =
      Except.ok { flattenedLength := totalLengthFromDims dims, depth := (dims.length : Int),
                  dims := dims, arrayOwnerQ := false } := by
    unfold mArrayBaseConstruct checkContainerSize
    simp [he, not_lt.mpr hlen, hall]
  constructor
  · intro hne
    rw [tensorFromRange_mismatch e tt elems dims host _ hbase (by exact hne)]
  · intro heq
    exact ⟨_, _, (mtensorNew tt (totalLengthFromDims dims) host).1,
      tensorFromRange_matches e tt elems dims host _ hbase (by exact heq), rfl,
      hostData_after_new_and_set tt (totalLengthFromDims dims) host elems⟩

/-- C8 witness: with dimensions [2, 2] (flattened length 4), a range of 3
elements is rejected with TensorNewError, and a range of 4 elements is
copied into the new storage. -/
theorem tensorFromRange_length_check_witness :
    hooksOk envAll = true ∧
    ((tensorFromRange envAll TensorType.integer [1, 2, 3] [2, 2] hostEmpty).1 =
      Except.error LLErrorCode.TensorNewError) ∧
    (∃ t host2 hd,
      tensorFromRange envAll TensorType.integer [1, 2, 3, 4] [2, 2] hostEmpty =
        (Except.ok t, host2) ∧
      t.internalMT = some hd ∧ hostData host2 hd = some [1, 2, 3, 4]) := by
  refine ⟨rfl, ?_, ?_⟩
  · exact (tensorFromRange_length_check envAll TensorType.integer [1, 2, 3] [2, 2]
      hostEmpty rfl (by decide) (by decide)).1 (by decide)
  · exact (tensorFromRange_length_check envAll TensorType.integer [1, 2, 3, 4] [2, 2]
      hostEmpty rfl (by decide) (by decide)).2 (by decide)

/-- MRawArray element type tag (`rawarray_t` of WolframRawArrayLibrary.h).
The listed constructors are the case labels of the switch in
`MArgumentManager::operateOnRawArray` (src/src/MArgumentManager.h lines
362-405); `Undef` stands for every remaining value of the underlying enum
(for example the undefined tag), which the switch sends to its default
branch. -/
inductive RawArrayType where
  | Bit8
  | Ubit8
  | Bit16
  | Ubit16
  | Bit32
  | Ubit32
  | Bit64
  | Ubit64
  | Real32
  | Real64
  | FloatComplex
  | DoubleComplex
  | Undef
deriving DecidableEq

/-- Native element types at which the generic operation can be
instantiated: the template arguments appearing in the dispatch switches of
MArgumentManager.h (`int8_t` ... `uint64_t`, `float`, `double`,
`std::complex<float>`, `std::complex<double>`, and `mint` for tensors). -/
inductive NativeType where
  | int8
  | uint8
  | int16
  | uint16
  | int32
  | uint32
  | int64
  | uint64
  | float32
  | float64
  | complexFloat
  | complexDouble
  | mintType
deriving DecidableEq

/-- Embedding of `MArgumentManager::operateOnRawArray` (src/src/
MArgumentManager.h lines 362-405): given the runtime tag returned by
`getRawArrayType(index)`, the switch invokes the caller-supplied operation
`op` instantiated at the native element type of the matching case
(`op(this->getRawArray<T>(index), args...)`); the default branch throws
`MArgumentRawArrayError`. The result is `op` applied to the chosen
instantiation type. -/
def operateOnRawArray {α : Type} (op : NativeType → α) :
    RawArrayType → Except LLErrorCode α
  | .Bit8 => .ok (op .int8)
  | .Ubit8 => .ok (op .uint8)
  | .Bit16 => .ok (op .int16)
  | .Ubit16 => .ok (op .uint16)
  | .Bit32 => .ok (op .int32)
  | .Ubit32 => .ok (op .uint32)
  | .Bit64 => .ok (op .int64)
  | .Ubit64 => .ok (op .uint64)
  | .Real32 => .ok (op .float32)
  | .Real64 => .ok (op .float64)
  | .FloatComplex => .ok (op .complexFloat)
  | .DoubleComplex => .ok (op .complexDouble)
  | .Undef => .error .MArgumentRawArrayError

/-- Embedding of `MArgumentManager::operateOnTensor` (src/src/
MArgumentManager.h lines 420-436): the switch on `getTensorType(index)`
invokes `op` at `mint`, `double` or `std::complex<double>`; the default
branch throws `MArgumentTensorError`. -/
def operateOnTensor {α : Type} (op : NativeType → α) :
    TensorType → Except LLErrorCode α
  | .integer => .ok (op .mintType)
  | .real => .ok (op .float64)
  | .complex => .ok (op .complexDouble)
  | .other => .error .MArgumentTensorError

/-- Modelled from the spec: the element type tag set of the RawBuffer-like
variant and its tag to native type mapping (8/16/32/64-bit signed and
unsigned integers, 32/64-bit floats, complex-float, complex-double; the
scenario maps the 8-bit-unsigned tag to uint8). Tags outside the supported
set map to none. -/
def specRawArrayTagMap : RawArrayType → Option NativeType
  | .Bit8 => some .int8
  | .Ubit8 => some .uint8
  | .Bit16 => some .int16
  | .Ubit16 => some .uint16
  | .Bit32 => some .int32
  | .Ubit32 => some .uint32
  | .Bit64 => some .int64
  | .Ubit64 => some .uint64
  | .Real32 => some .float32
  | .Real64 => some .float64
  | .FloatComplex => some .complexFloat
  | .DoubleComplex => some .complexDouble
  | .Undef => none

/-- Modelled from the spec: the element type tag set of the Tensor-like
variant (integer, real, complex-double) and its tag to native type mapping.
Tags outside the supported set map to none. -/
def specTensorTagMap : TensorType → Option NativeType
  | .integer => some .mintType
  | .real => some .float64
  | .complex => some .complexDouble
  | .other => none

/-- C3: for every tag in the supported set of the variant the dispatch
invokes the caller-supplied operation instantiated exactly at the native
element type the spec maps the tag to, and for every tag outside the
supported set it fails with the variant-specific type error; no branch
invokes the operation at a different element type. -/
theorem dispatch_matches_tag_table :
    (∀ (α : Type) (op : NativeType → α) (t : RawArrayType),
      operateOnRawArray op t =
        match specRawArrayTagMap t with
        | some nt => Except.ok (op nt)
        | none => Except.error LLErrorCode.MArgumentRawArrayError) ∧
    (∀ (α : Type) (op : NativeType → α) (t : TensorType),
      operateOnTensor op t =
        match specTensorTagMap t with
        | some nt => Except.ok (op nt)
        | none => Except.error LLErrorCode.MArgumentTensorError) := by
  constructor
  · intro α op t
    cases t <;> rfl
  · intro α op t
    cases t <;> rfl

end LibraryLinkUtils
